import Mathlib

/-!
Verification of the OpenSpace-Web-Backend supervisor (supervisor.py) and the
secure-deployment reverse proxy (secure_deployment/proxy.py).

The supervisor keeps a fixed pool `Processes` of `OsProcess` slots and answers
JSON commands (START / STOP / STATUS / SERVER_STATUS) over a websocket.  The
message handler `processMessage` is embedded below as a pure function from a
pool snapshot and a parsed request to an `Outcome` recording the replies sent,
the updated pool, the deinitialization timers armed, the process handles
killed, and any uncaught Python exception.  Python-specific behaviour that the
claims depend on is modelled faithfully: list indexing with negative wrap
(`pyIdx`), dictionary field assignment preserving insertion order
(`setField`), and `json.dumps` raising `TypeError` on a non-serializable
value such as an `Enum` member (`trySend`).

The concurrent lifecycle of one slot (the launcher thread started by START,
the STOP handler, and the deinitialization timer) is embedded as a small
transition system `Step` over `SlotSys`.
-/

namespace OpenSpaceSupervisor

/-- Mirrors `class State(Enum)` in supervisor.py. -/
inductive State
  | IDLE
  | INITIALIZING
  | RUNNING
  | DEINITIALIZING
  | INVALID
  deriving DecidableEq, Repr

/-- Mirrors `OsProcess.currentStateString` in supervisor.py. -/
def currentStateString : State → String
  | State.IDLE => "IDLE"
  | State.INITIALIZING => "INITIALIZING"
  | State.RUNNING => "RUNNING"
  | State.DEINITIALIZING => "DEINITIALIZING"
  | State.INVALID => "INVALID"

/-- Mirrors the fields of `class OsProcess` that the message handler reads or
writes (`state`, `handle`, `pid_OpenSpace`, `pid_ParentShell`).  The process
handle and the pids are `none` until the launcher thread stores them. -/
structure OsProcess where
  state : State := State.IDLE
  handle : Option Nat := none
  pid_OpenSpace : Option Nat := none
  pid_ParentShell : Option Nat := none
  deriving DecidableEq, Repr

/-- JSON values appearing in the replies built by `processMessage`.  The
`stEnum` constructor records the bug-relevant case where the Python code
stores a raw `State` enum member in the result dictionary. -/
inductive JVal
  | s (v : String)
  | i (v : Int)
  | stEnum (v : State)
  deriving DecidableEq, Repr

/-- A reply dictionary: association list in Python dict insertion order. -/
abbrev Reply := List (String × JVal)

/-- Python dict assignment `r[k] = v`: updates the value in place when the key
exists, otherwise appends the new key at the end. -/
def setField (r : Reply) (k : String) (v : JVal) : Reply :=
  if r.any (fun p => p.1 == k) then r.map (fun p => if p.1 == k then (k, v) else p)
  else r ++ [(k, v)]

/-- Lookup of a key in a reply dictionary. -/
def getField (r : Reply) (k : String) : Option JVal :=
  (r.find? (fun p => p.1 == k)).map (fun p => p.2)

/-- A `State` enum member is not JSON-serializable in Python. -/
def serializableJVal : JVal → Bool
  | JVal.stEnum _ => false
  | _ => true

/-- Whether `json.dumps` succeeds on the reply dictionary. -/
def jsonDumpsOk (r : Reply) : Bool :=
  r.all (fun p => serializableJVal p.2)

/-- Mirrors `json.dumps(result)` followed by `sendMessage`: the dump raises
`TypeError` when a value (such as `State.INVALID`) is not serializable. -/
def trySend (r : Reply) : Except String (List Reply) :=
  if jsonDumpsOk r then Except.ok [r]
  else Except.error "TypeError: Object of type State is not JSON serializable"

/-- Effective index of Python list subscription `l[i]` on a list of length
`len`: non-negative indices must be below the length, negative indices wrap
from the end, and anything else raises `IndexError` (`none`). -/
def pyIdx (len : Nat) (i : Int) : Option Nat :=
  if 0 ≤ i then (if i < (len : Int) then some i.toNat else none)
  else if 0 ≤ (len : Int) + i then some ((len : Int) + i).toNat else none

/-- Python list subscription `l[i]` with negative-index wrap. -/
def pyGet (l : List OsProcess) (i : Int) : Option OsProcess :=
  (pyIdx l.length i).bind (fun n => l[n]?)

/-- Replaces the element at (non-negative) position `n` using `f`. -/
def listModify (l : List OsProcess) (n : Nat) (f : OsProcess → OsProcess) :
    List OsProcess :=
  match l[n]? with
  | some a => l.set n (f a)
  | none => l

/-- Mirrors `Processes[i].setState(st)` including Python negative-index wrap. -/
def pySetState (l : List OsProcess) (i : Int) (st : State) : List OsProcess :=
  match pyIdx l.length i with
  | some n => listModify l n (fun p => { p with state := st })
  | none => l

/-- Mirrors the START scan `for i in range(0, len(Processes)): if
Processes[i].currentState() == State.IDLE: startId = i; break`, returning the
index found (the loop leaves `startId = -1` when the scan finds nothing). -/
def findFirstIdle : List OsProcess → Option Nat
  | [] => none
  | p :: ps =>
    if p.state = State.IDLE then some 0
    else (findFirstIdle ps).map (fun n => n + 1)

/-- Mirrors the SERVER_STATUS counting loop `for i in range(0,
len(Processes)): if Processes[i].currentState() != State.IDLE: nRunning += 1`. -/
def countNonIdle : List OsProcess → Nat
  | [] => 0
  | p :: ps => (if p.state ≠ State.IDLE then 1 else 0) + countNonIdle ps

/-- Mirrors `terminateOpenSpaceInstance` (supervisor.py, direct mode): when
the slot state is INITIALIZING, RUNNING or DEINITIALIZING it calls
`Processes[id].getHandle().kill()`; a missing handle (`None`) makes the call
raise `AttributeError`.  Returns the handles killed. -/
def terminateOpenSpaceInstance (pool : List OsProcess) (id : Int) :
    Except String (List Nat) :=
  match pyGet pool id with
  | none => Except.error "IndexError: list index out of range"
  | some p =>
    if p.state = State.INITIALIZING ∨ p.state = State.RUNNING ∨
        p.state = State.DEINITIALIZING then
      match p.handle with
      | none => Except.error "AttributeError: NoneType object has no attribute kill"
      | some h => Except.ok [h]
    else Except.ok []

/-- Mirrors `setTimerForDeinitializationPeriod`: the timer callback
unconditionally sets the stopped slot back to IDLE, regardless of the current
state or whether the underlying process has exited. -/
def setTimerForDeinitializationPeriod (pool : List OsProcess) (idStopped : Int) :
    List OsProcess :=
  pySetState pool idStopped State.IDLE

/-- Grace period in seconds of the deinitialization safety timer,
`Timer(5.0, ...)`. -/
def deinitializationGracePeriodSeconds : Nat := 5

/-- An inbound websocket message as seen by `processMessage`: either not
parseable as JSON (`json.loads` raises `JSONDecodeError`) or a parsed object
with an optional `command` string field and an optional integer `id` field. -/
inductive Request
  | malformed
  | msg (command : Option String) (id : Option Int)
  deriving DecidableEq, Repr

/-- The observable outcome of one `processMessage` call: replies sent (in
order), the pool afterwards, ids passed to `Timer(5.0,
setTimerForDeinitializationPeriod, args=(id,))`, process handles killed, and
any uncaught Python exception. -/
structure Outcome where
  pool : List OsProcess
  sent : List Reply := []
  timersArmed : List Int := []
  kills : List Nat := []
  exn : Option String := none
  deriving DecidableEq, Repr

/-- The result template `{"command": "START", "error": "none", "id": 0}` with
the inbound command echoed into the `command` field. -/
def initialResult (command : String) : Reply :=
  [("command", JVal.s command), ("error", JVal.s "none"), ("id", JVal.i 0)]

/-- Shallow embedding of `processMessage` (supervisor.py) in direct launch
mode (`RunOpenSpaceInShell = False`).  Accessing a missing dictionary key
(`json_data['command']`, `json_data['id']`) raises `KeyError`, which only the
surrounding `except json.JSONDecodeError` does not catch. -/
def processMessage (pool : List OsProcess) (req : Request) : Outcome :=
  match req with
  | Request.malformed =>
    { pool := pool, sent := [[("error", JVal.s "json decode error")]] }
  | Request.msg none _ =>
    { pool := pool, exn := some "KeyError: command" }
  | Request.msg (some command) idField =>
    let result := initialResult command
    if command = "START" then
      match findFirstIdle pool with
      | some startId =>
        let result := setField result "id" (JVal.i startId)
        match trySend result with
        | Except.error e => { pool := pool, exn := some e }
        | Except.ok s =>
          { pool := listModify pool startId
              (fun p => { p with state := State.INITIALIZING }),
            sent := s }
      | none =>
        let result := setField result "error" (JVal.s "no available slots")
        let result := setField result "id" (JVal.i (-1))
        match trySend result with
        | Except.error e => { pool := pool, exn := some e }
        | Except.ok s => { pool := pool, sent := s }
    else if command = "STOP" then
      match idField with
      | none => { pool := pool, exn := some "KeyError: id" }
      | some idToStop =>
        let result := setField result "id" (JVal.i idToStop)
        if idToStop < (pool.length : Int) then
          match pyGet pool idToStop with
          | none =>
            { pool := pool, exn := some "IndexError: list index out of range" }
          | some slot =>
            if slot.state = State.IDLE then
              let result := setField result "error" (JVal.s "not running")
              match trySend result with
              | Except.error e => { pool := pool, exn := some e }
              | Except.ok s => { pool := pool, sent := s }
            else
              match trySend result with
              | Except.error e => { pool := pool, exn := some e }
              | Except.ok s =>
                let pool := pySetState pool idToStop State.DEINITIALIZING
                match terminateOpenSpaceInstance pool idToStop with
                | Except.ok ks =>
                  { pool := pool, sent := s, timersArmed := [idToStop],
                    kills := ks }
                | Except.error e =>
                  { pool := pool, sent := s, timersArmed := [idToStop],
                    exn := some e }
        else
          let result := setField result "error" (JVal.s "invalid id")
          match trySend result with
          | Except.error e => { pool := pool, exn := some e }
          | Except.ok s => { pool := pool, sent := s }
    else if command = "STATUS" then
      match idField with
      | none => { pool := pool, exn := some "KeyError: id" }
      | some idForStatus =>
        if idForStatus < (pool.length : Int) ∧ 0 ≤ idForStatus then
          match pyGet pool idForStatus with
          | none =>
            { pool := pool, exn := some "IndexError: list index out of range" }
          | some slot =>
            let result :=
              setField result "status" (JVal.s (currentStateString slot.state))
            match trySend result with
            | Except.error e => { pool := pool, exn := some e }
            | Except.ok s => { pool := pool, sent := s }
        else
          let result := setField result "status" (JVal.stEnum State.INVALID)
          let result := setField result "error" (JVal.s "invalid id")
          match trySend result with
          | Except.error e => { pool := pool, exn := some e }
          | Except.ok s => { pool := pool, sent := s }
    else if command = "SERVER_STATUS" then
      let result := setField result "running" (JVal.i (countNonIdle pool))
      let result := setField result "total" (JVal.i (pool.length : Int))
      match trySend result with
      | Except.error e => { pool := pool, exn := some e }
      | Except.ok s => { pool := pool, sent := s }
    else
      match trySend [("error", JVal.s ("invalid message received: " ++ command))] with
      | Except.error e => { pool := pool, exn := some e }
      | Except.ok s => { pool := pool, sent := s }

/-! Concurrent lifecycle of one slot.  START spawns a launcher thread
(`runOpenspace`) and sets the slot INITIALIZING; the thread stores the process
handle (`setProcessHandle`), later unconditionally sets RUNNING after the
readiness handshake, waits for process exit and unconditionally sets IDLE.
STOP on a non-IDLE slot sets DEINITIALIZING and arms a timer whose callback
unconditionally sets IDLE.  Thread-phase counters record how many launcher
executions are in each phase; `timers` counts armed deinitialization timers. -/

/-- One slot together with its in-flight launcher threads and armed timers. -/
structure SlotSys where
  state : State
  handle : Option Nat
  preHandle : Nat
  preReady : Nat
  preExit : Nat
  timers : Nat
  deriving DecidableEq, Repr

/-- A freshly created slot: IDLE, no handle, no thread, no timer. -/
def initSlot : SlotSys :=
  { state := State.IDLE, handle := none, preHandle := 0, preReady := 0,
    preExit := 0, timers := 0 }

/-- One interleaved step of the code paths that write a slot state:
the START handler, the launcher thread body (`runOpenspace`), the STOP
handler, and the deinitialization timer callback. -/
inductive Step : SlotSys → SlotSys → Prop
  | start (s : SlotSys) : s.state = State.IDLE →
      Step s { s with state := State.INITIALIZING, preHandle := s.preHandle + 1 }
  | storeHandle (s : SlotSys) (h : Nat) : 0 < s.preHandle →
      Step s { s with handle := some h, preHandle := s.preHandle - 1, preReady := s.preReady + 1 }
  | ready (s : SlotSys) : 0 < s.preReady →
      Step s { s with state := State.RUNNING, preReady := s.preReady - 1, preExit := s.preExit + 1 }
  | exitDetected (s : SlotSys) : 0 < s.preExit →
      Step s { s with state := State.IDLE, preExit := s.preExit - 1 }
  | stop (s : SlotSys) : s.state ≠ State.IDLE →
      Step s { s with state := State.DEINITIALIZING, timers := s.timers + 1 }
  | timerFire (s : SlotSys) : 0 < s.timers →
      Step s { s with state := State.IDLE, timers := s.timers - 1 }

/-- States of one slot reachable from the initial pool entry. -/
inductive Reachable : SlotSys → Prop
  | init : Reachable initSlot
  | step {s t : SlotSys} : Reachable s → Step s t → Reachable t

/-- The transition edges the specification permits. -/
def specEdge (a b : State) : Prop :=
  (a, b) ∈ [(State.IDLE, State.INITIALIZING),
    (State.INITIALIZING, State.RUNNING),
    (State.INITIALIZING, State.DEINITIALIZING),
    (State.RUNNING, State.DEINITIALIZING),
    (State.DEINITIALIZING, State.IDLE)]

instance (a b : State) : Decidable (specEdge a b) := by
  unfold specEdge; infer_instance

/-- The transition edges the code can actually take: additionally
RUNNING→IDLE (launcher observes process exit), DEINITIALIZING→RUNNING,
IDLE→RUNNING (the readiness write is unconditional) and INITIALIZING→IDLE
(the exit write and the timer callback are unconditional). -/
def codeEdge (a b : State) : Prop :=
  (a, b) ∈ [(State.IDLE, State.INITIALIZING),
    (State.INITIALIZING, State.RUNNING),
    (State.INITIALIZING, State.DEINITIALIZING),
    (State.RUNNING, State.DEINITIALIZING),
    (State.DEINITIALIZING, State.IDLE),
    (State.RUNNING, State.IDLE),
    (State.DEINITIALIZING, State.RUNNING),
    (State.IDLE, State.RUNNING),
    (State.INITIALIZING, State.IDLE)]

instance (a b : State) : Decidable (codeEdge a b) := by
  unfold codeEdge; infer_instance

end OpenSpaceSupervisor

namespace OpenSpaceProxy

/-- Mirrors `BASE_PORT = 4682` in secure_deployment/proxy.py. -/
def BASE_PORT : Int := 4682

/-- Mirrors `MAX_OFFSET = 100` in secure_deployment/proxy.py. -/
def MAX_OFFSET : Int := 100

/-- Whitespace as stripped by Python `int()` (ASCII model). -/
def isPySpace (c : Char) : Bool :=
  c = ' ' || c = '\t' || c = '\n' || c = '\r' || c = '\x0b' || c = '\x0c'

/-- Strips characters satisfying `p` from both ends of a character list. -/
def stripChars (cs : List Char) (p : Char → Bool) : List Char :=
  ((cs.dropWhile p).reverse.dropWhile p).reverse

/-- Digit run after its first character: ASCII digits with single
underscores allowed between digits, as accepted by Python `int()`. -/
def digitsRestOk : List Char → Bool
  | [] => true
  | '_' :: [] => false
  | '_' :: c :: cs => c.isDigit && digitsRestOk (c :: cs)
  | c :: cs => c.isDigit && digitsRestOk cs

/-- A nonempty digit run (underscore-separated groups allowed). -/
def digitsOk : List Char → Bool
  | [] => false
  | c :: cs => c.isDigit && digitsRestOk cs

/-- Numeric value of a digit run, ignoring underscores. -/
def digitsVal (cs : List Char) : Nat :=
  cs.foldl (fun acc c => if c.isDigit then acc * 10 + (c.toNat - 48) else acc) 0

/-- Model of Python `int(s)` on ASCII strings: strip whitespace, optional
sign, then a digit run; anything else raises `ValueError` (`none`). -/
def pyInt (s : String) : Option Int :=
  let cs := stripChars s.toList isPySpace
  match cs with
  | '+' :: ds => if digitsOk ds then some ((digitsVal ds : Nat) : Int) else none
  | '-' :: ds => if digitsOk ds then some (-((digitsVal ds : Nat) : Int)) else none
  | ds => if digitsOk ds then some ((digitsVal ds : Nat) : Int) else none

/-- Mirrors `path.strip('/')`. -/
def pyStripSlashes (s : String) : String :=
  String.mk (stripChars s.toList (fun c => c = '/'))

/-- Mirrors `path.startswith('/')`: the first character is a slash. -/
def startsWithSlash (s : String) : Bool :=
  match s.toList with
  | [] => false
  | c :: _ => c = '/'

/-- What the proxy handler does with a connection before relaying any frame. -/
inductive ProxyAction
  | relayWs
  | relayPort (p : Int)
  | close (code : Nat) (reason : String)
  deriving DecidableEq, Repr

/-- The port allow-list check `port == 8443 or BASE_PORT <= port <=
BASE_PORT + MAX_OFFSET`. -/
def allowedPort (port : Int) : Prop :=
  port = 8443 ∨ (BASE_PORT ≤ port ∧ port ≤ BASE_PORT + MAX_OFFSET)

instance (port : Int) : Decidable (allowedPort port) := by
  unfold allowedPort; infer_instance

/-- Shallow embedding of `handler` (secure_deployment/proxy.py): the routing
decision taken from the request path, up to the first outbound connection
attempt (`relayWs` targets ws://openspaceweb.com:4690/ws, `relayPort p`
targets ws://openspaceweb.com:p; `close` happens before any outbound
connection is attempted). -/
def handler (path : String) : ProxyAction :=
  if path = "/ws" then ProxyAction.relayWs
  else if ¬ startsWithSlash path then ProxyAction.close 1008 "Invalid path"
  else
    match pyInt (pyStripSlashes path) with
    | none => ProxyAction.close 1008 "Invalid port format"
    | some port =>
      if allowedPort port then ProxyAction.relayPort port
      else ProxyAction.close 1008 "Invalid port range"

/-- Follows the wording of the spec for the refinement comparison: the
numeric value of a request path.  Request paths are origin-form (they begin
with a slash); the value is what the proxy parses after stripping slashes. -/
def pathNumericValue (path : String) : Option Int :=
  if startsWithSlash path then pyInt (pyStripSlashes path) else none

end OpenSpaceProxy

namespace OpenSpaceSupervisor

/-! Supporting lemmas. -/

theorem getElem?_length {l : List OsProcess} {n : Nat} {a : OsProcess}
    (h : l[n]? = some a) : n < l.length := by
  by_contra hn
  rw [List.getElem?_eq_none (Nat.le_of_not_lt hn)] at h
  exact Option.noConfusion h

theorem listModify_get_self {l : List OsProcess} {n : Nat} {a : OsProcess}
    (f : OsProcess → OsProcess) (h : l[n]? = some a) :
    (listModify l n f)[n]? = some (f a) := by
  unfold listModify
  rw [h]
  exact List.getElem?_set_self (getElem?_length h)

theorem listModify_get_ne {l : List OsProcess} {n k : Nat}
    (f : OsProcess → OsProcess) (h : k ≠ n) :
    (listModify l n f)[k]? = l[k]? := by
  unfold listModify
  cases hl : l[n]? with
  | none => rfl
  | some a => exact List.getElem?_set_ne (Ne.symm h)

theorem pyIdx_nonneg {len : Nat} {i : Int} (h0 : 0 ≤ i) (hlt : i < (len : Int)) :
    pyIdx len i = some i.toNat := by
  unfold pyIdx
  rw [if_pos h0, if_pos hlt]

theorem pyGet_nonneg {pool : List OsProcess} {i : Int} (h0 : 0 ≤ i)
    (hlt : i < (pool.length : Int)) :
    pyGet pool i = pool[i.toNat]? := by
  unfold pyGet
  rw [pyIdx_nonneg h0 hlt]
  rfl

theorem int_lt_length {pool : List OsProcess} {i : Int} {slot : OsProcess}
    (h0 : 0 ≤ i) (hget : pool[i.toNat]? = some slot) :
    i < (pool.length : Int) := by
  have h := getElem?_length hget
  omega

theorem countNonIdle_eq_countP (pool : List OsProcess) :
    countNonIdle pool = pool.countP (fun p => decide (p.state ≠ State.IDLE)) := by
  induction pool with
  | nil => rfl
  | cons p ps ih =>
    rw [List.countP_cons, countNonIdle, ih]
    by_cases h : p.state = State.IDLE
    · simp [h]
    · simp [h]
      omega

/-! Branch characterizations of `processMessage`. -/

theorem findFirstIdle_eq_some {pool : List OsProcess} {j : Nat} {pj : OsProcess}
    (hget : pool[j]? = some pj) (hidle : pj.state = State.IDLE)
    (hmin : ∀ k, k < j → ∀ q, pool[k]? = some q → q.state ≠ State.IDLE) :
    findFirstIdle pool = some j := by
  induction pool generalizing j with
  | nil => simp at hget
  | cons p ps ih =>
    cases j with
    | zero =>
      simp at hget
      rw [findFirstIdle, if_pos (hget ▸ hidle)]
    | succ j =>
      have hp : p.state ≠ State.IDLE := hmin 0 (Nat.succ_pos j) p (by simp)
      rw [findFirstIdle, if_neg hp,
        ih (by simpa using hget)
          (fun k hk q hq => hmin (k + 1) (Nat.succ_lt_succ hk) q (by simpa using hq))]
      rfl

theorem findFirstIdle_eq_none {pool : List OsProcess}
    (h : ∀ q ∈ pool, q.state ≠ State.IDLE) :
    findFirstIdle pool = none := by
  induction pool with
  | nil => rfl
  | cons p ps ih =>
    rw [findFirstIdle, if_neg (h p (List.mem_cons_self p ps)),
      ih (fun q hq => h q (List.mem_cons_of_mem p hq))]
    rfl

theorem processMessage_start_found {pool : List OsProcess} {j : Nat}
    (idf : Option Int) (h : findFirstIdle pool = some j) :
    processMessage pool (Request.msg (some "START") idf) =
      { pool := listModify pool j (fun p => { p with state := State.INITIALIZING }),
        sent := [[("command", JVal.s "START"), ("error", JVal.s "none"),
                  ("id", JVal.i (j : Int))]] } := by
  simp only [processMessage, h]
  rfl

theorem processMessage_start_none {pool : List OsProcess}
    (idf : Option Int) (h : findFirstIdle pool = none) :
    processMessage pool (Request.msg (some "START") idf) =
      { pool := pool,
        sent := [[("command", JVal.s "START"),
                  ("error", JVal.s "no available slots"),
                  ("id", JVal.i (-1))]] } := by
  simp only [processMessage, h]
  rfl

end OpenSpaceSupervisor

namespace OpenSpaceSupervisor

/-! Claim theorems. -/

/-- C1: For every pool and every START command the handler scans slots in
ascending index order and selects the first slot whose state is IDLE; if slot
j is IDLE and every smaller-index slot is not, slot j's state is set to
INITIALIZING (all other slots unchanged) and the reply carries id = j with no
error; if no slot is IDLE, the reply carries id = -1 and error "no available
slots" and no slot's state changes. -/
theorem claim_start_selects_first_idle :
    (∀ (pool : List OsProcess) (j : Nat) (pj : OsProcess),
        pool[j]? = some pj → pj.state = State.IDLE →
        (∀ k, k < j → ∀ q, pool[k]? = some q → q.state ≠ State.IDLE) →
        processMessage pool (Request.msg (some "START") none) =
          { pool := listModify pool j (fun p => { p with state := State.INITIALIZING }),
            sent := [[("command", JVal.s "START"), ("error", JVal.s "none"),
                      ("id", JVal.i (j : Int))]] } ∧
        (listModify pool j (fun p => { p with state := State.INITIALIZING }))[j]? =
          some { pj with state := State.INITIALIZING } ∧
        (∀ k, k ≠ j →
          (listModify pool j (fun p => { p with state := State.INITIALIZING }))[k]? =
            pool[k]?)) ∧
    (∀ pool : List OsProcess,
        (∀ q ∈ pool, q.state ≠ State.IDLE) →
        processMessage pool (Request.msg (some "START") none) =
          { pool := pool,
            sent := [[("command", JVal.s "START"),
                      ("error", JVal.s "no available slots"),
                      ("id", JVal.i (-1))]] }) := by
  constructor
  · intro pool j pj hget hidle hmin
    have hf := findFirstIdle_eq_some hget hidle hmin
    exact ⟨processMessage_start_found none hf, listModify_get_self _ hget,
      fun k hk => listModify_get_ne _ hk⟩
  · intro pool h
    exact processMessage_start_none none (findFirstIdle_eq_none h)

/-- Witness for C1: on a two-slot pool whose slot 0 is RUNNING and slot 1 is
IDLE, START claims slot 1. -/
theorem claim_start_selects_first_idle_witness :
    processMessage
        [{ state := State.RUNNING, handle := some 3 }, { state := State.IDLE }]
        (Request.msg (some "START") none) =
      { pool := [{ state := State.RUNNING, handle := some 3 },
                 { state := State.INITIALIZING }],
        sent := [[("command", JVal.s "START"), ("error", JVal.s "none"),
                  ("id", JVal.i 1)]] } := by
  have hmin : ∀ k, k < 1 → ∀ q : OsProcess,
      ([{ state := State.RUNNING, handle := some 3 },
        { state := State.IDLE }] : List OsProcess)[k]? = some q →
      q.state ≠ State.IDLE := by
    intro k hk q hq
    have hk0 : k = 0 := by omega
    subst hk0
    simp at hq
    subst hq
    decide
  exact (claim_start_selects_first_idle.1
      [{ state := State.RUNNING, handle := some 3 }, { state := State.IDLE }] 1
      { state := State.IDLE } (by decide) rfl hmin).1

/-- C4: For every pool state, the SERVER_STATUS reply's `running` field equals
the number of slots whose state is not IDLE, its `total` field equals the pool
capacity, the error field is "none", and the pool is unchanged. -/
theorem claim_server_status_counts (pool : List OsProcess) :
    processMessage pool (Request.msg (some "SERVER_STATUS") none) =
      { pool := pool,
        sent := [[("command", JVal.s "SERVER_STATUS"), ("error", JVal.s "none"),
                  ("id", JVal.i 0),
                  ("running",
                    JVal.i ((pool.countP (fun p => decide (p.state ≠ State.IDLE)) : Nat) : Int)),
                  ("total", JVal.i (pool.length : Int))]] } := by
  rw [← countNonIdle_eq_countP]
  rfl

end OpenSpaceSupervisor

namespace OpenSpaceSupervisor

theorem processMessage_stop_idle {pool : List OsProcess} {i : Int} {slot : OsProcess}
    (h0 : 0 ≤ i) (hget : pool[i.toNat]? = some slot)
    (hidle : slot.state = State.IDLE) :
    processMessage pool (Request.msg (some "STOP") (some i)) =
      { pool := pool,
        sent := [[("command", JVal.s "STOP"), ("error", JVal.s "not running"),
                  ("id", JVal.i i)]] } := by
  have hlt : i < (pool.length : Int) := int_lt_length h0 hget
  have hpg : pyGet pool i = some slot := by rw [pyGet_nonneg h0 hlt]; exact hget
  simp only [processMessage, if_pos hlt, hpg, if_pos hidle]
  rfl

theorem processMessage_stop_active {pool : List OsProcess} {i : Int} {slot : OsProcess}
    (h0 : 0 ≤ i) (hget : pool[i.toNat]? = some slot)
    (hnidle : slot.state ≠ State.IDLE) :
    (processMessage pool (Request.msg (some "STOP") (some i))).pool =
        pySetState pool i State.DEINITIALIZING ∧
    (processMessage pool (Request.msg (some "STOP") (some i))).sent =
        [[("command", JVal.s "STOP"), ("error", JVal.s "none"), ("id", JVal.i i)]] ∧
    (processMessage pool (Request.msg (some "STOP") (some i))).timersArmed = [i] := by
  have hlt : i < (pool.length : Int) := int_lt_length h0 hget
  have hpg : pyGet pool i = some slot := by rw [pyGet_nonneg h0 hlt]; exact hget
  simp only [processMessage, if_pos hlt, hpg, if_neg hnidle]
  cases htm : terminateOpenSpaceInstance (pySetState pool i State.DEINITIALIZING) i <;>
    simp [htm, trySend, jsonDumpsOk, serializableJVal, setField, initialResult]

theorem pySetState_get {pool : List OsProcess} {i : Int} {slot : OsProcess}
    (st : State) (h0 : 0 ≤ i) (hget : pool[i.toNat]? = some slot) :
    (pySetState pool i st)[i.toNat]? = some { slot with state := st } := by
  have hlt : i < (pool.length : Int) := int_lt_length h0 hget
  simp only [pySetState, pyIdx_nonneg h0 hlt]
  exact listModify_get_self _ hget

/-- C7: For every id in [0, capacity) whose slot is in state IDLE, a STOP
command replies with error "not running" echoing the id, and no slot state
changes, no timer is armed, no termination is attempted, and nothing is
raised. -/
theorem claim_stop_on_idle_slot (pool : List OsProcess) (i : Int) (slot : OsProcess)
    (h0 : 0 ≤ i) (hget : pool[i.toNat]? = some slot)
    (hidle : slot.state = State.IDLE) :
    processMessage pool (Request.msg (some "STOP") (some i)) =
      { pool := pool,
        sent := [[("command", JVal.s "STOP"), ("error", JVal.s "not running"),
                  ("id", JVal.i i)]],
        timersArmed := [], kills := [], exn := none } :=
  processMessage_stop_idle h0 hget hidle

/-- Witness for C7: STOP 0 on a one-slot pool whose slot is IDLE. -/
theorem claim_stop_on_idle_slot_witness :
    processMessage [{ state := State.IDLE }] (Request.msg (some "STOP") (some 0)) =
      { pool := [{ state := State.IDLE }],
        sent := [[("command", JVal.s "STOP"), ("error", JVal.s "not running"),
                  ("id", JVal.i 0)]],
        timersArmed := [], kills := [], exn := none } :=
  claim_stop_on_idle_slot [{ state := State.IDLE }] 0 { state := State.IDLE }
    (by decide) (by decide) rfl

/-- C5 (failing input): the claim says every id outside [0, capacity) — in
particular every negative id — is answered with error "invalid id" and no
slot changes.  The code only checks `idToStop < len(Processes)`: STOP -1 on a
3-slot pool whose slot 2 is RUNNING passes the check, Python negative
indexing selects slot 2, the reply carries error "none", slot 2 transitions
to DEINITIALIZING, the timer is armed and the handle is killed; STOP -4
raises an uncaught IndexError with no reply at all. -/
theorem claim_stop_negative_id_not_rejected :
    processMessage
        [{ state := State.IDLE }, { state := State.IDLE },
         { state := State.RUNNING, handle := some 7 }]
        (Request.msg (some "STOP") (some (-1))) =
      { pool := [{ state := State.IDLE }, { state := State.IDLE },
                 { state := State.DEINITIALIZING, handle := some 7 }],
        sent := [[("command", JVal.s "STOP"), ("error", JVal.s "none"),
                  ("id", JVal.i (-1))]],
        timersArmed := [-1], kills := [7], exn := none } ∧
    processMessage
        [{ state := State.IDLE }, { state := State.IDLE },
         { state := State.RUNNING, handle := some 7 }]
        (Request.msg (some "STOP") (some (-4))) =
      { pool := [{ state := State.IDLE }, { state := State.IDLE },
                 { state := State.RUNNING, handle := some 7 }],
        sent := [], timersArmed := [], kills := [],
        exn := some "IndexError: list index out of range" } :=
  ⟨rfl, rfl⟩

/-- C6 (failing input): for an out-of-range id the STATUS handler stores the
raw enum member `State.INVALID` in the result dictionary, so `json.dumps`
raises an uncaught TypeError and no reply is sent at all — the claimed reply
`status="INVALID", error="invalid id"` never reaches the caller.  For an
in-range id the reply does carry the state name with no error. -/
theorem claim_status_out_of_range_raises :
    processMessage
        [{ state := State.IDLE }, { state := State.IDLE },
         { state := State.RUNNING, handle := some 7 }]
        (Request.msg (some "STATUS") (some 99)) =
      { pool := [{ state := State.IDLE }, { state := State.IDLE },
                 { state := State.RUNNING, handle := some 7 }],
        sent := [], timersArmed := [], kills := [],
        exn := some "TypeError: Object of type State is not JSON serializable" } ∧
    processMessage
        [{ state := State.IDLE }, { state := State.IDLE },
         { state := State.RUNNING, handle := some 7 }]
        (Request.msg (some "STATUS") (some (-1))) =
      { pool := [{ state := State.IDLE }, { state := State.IDLE },
                 { state := State.RUNNING, handle := some 7 }],
        sent := [], timersArmed := [], kills := [],
        exn := some "TypeError: Object of type State is not JSON serializable" } ∧
    processMessage
        [{ state := State.IDLE }, { state := State.IDLE },
         { state := State.RUNNING, handle := some 7 }]
        (Request.msg (some "STATUS") (some 2)) =
      { pool := [{ state := State.IDLE }, { state := State.IDLE },
                 { state := State.RUNNING, handle := some 7 }],
        sent := [[("command", JVal.s "STATUS"), ("error", JVal.s "none"),
                  ("id", JVal.i 0), ("status", JVal.s "RUNNING")]],
        timersArmed := [], kills := [], exn := none } :=
  ⟨rfl, rfl, rfl⟩

/-- C10: In direct launch mode the state in which a slot is INITIALIZING
while its process handle is still none is reachable (START sets INITIALIZING
before the launcher thread stores the handle), and in that state
`terminateOpenSpaceInstance` dereferences the missing handle and raises
AttributeError instead of being a no-op; via a STOP on that slot the raise is
reachable in the message handler. -/
theorem claim_kill_on_missing_handle_raises :
    Reachable { state := State.INITIALIZING, handle := none, preHandle := 1,
                preReady := 0, preExit := 0, timers := 0 } ∧
    terminateOpenSpaceInstance [{ state := State.INITIALIZING, handle := none }] 0 =
      Except.error "AttributeError: NoneType object has no attribute kill" ∧
    (processMessage [{ state := State.INITIALIZING, handle := none }]
        (Request.msg (some "STOP") (some 0))).exn =
      some "AttributeError: NoneType object has no attribute kill" :=
  ⟨Reachable.step Reachable.init (Step.start initSlot rfl), rfl, rfl⟩

/-- C3: For every slot not in state IDLE an accepted STOP transitions it to
DEINITIALIZING immediately and arms the deinitialization safety timer; the
timer callback then unconditionally resets that slot to IDLE, independent of
its current contents; correspondingly in the lifecycle transition system the
STOP step enters DEINITIALIZING arming a timer and the timer-expiry step
enters IDLE from any state. -/
theorem claim_stop_deinitializing_then_timer_idle :
    (∀ (pool : List OsProcess) (i : Int) (slot : OsProcess),
        0 ≤ i → pool[i.toNat]? = some slot → slot.state ≠ State.IDLE →
        (processMessage pool (Request.msg (some "STOP") (some i))).pool[i.toNat]? =
            some { slot with state := State.DEINITIALIZING } ∧
        (processMessage pool (Request.msg (some "STOP") (some i))).timersArmed = [i]) ∧
    (∀ (pool : List OsProcess) (i : Int) (n : Nat) (slot : OsProcess),
        pyIdx pool.length i = some n → pool[n]? = some slot →
        (setTimerForDeinitializationPeriod pool i)[n]? =
          some { slot with state := State.IDLE }) ∧
    (∀ s : SlotSys, s.state ≠ State.IDLE →
        Step s { s with state := State.DEINITIALIZING, timers := s.timers + 1 }) ∧
    (∀ s : SlotSys, 0 < s.timers →
        Step s { s with state := State.IDLE, timers := s.timers - 1 }) := by
  refine ⟨?_, ?_, fun s h => Step.stop s h, fun s h => Step.timerFire s h⟩
  · intro pool i slot h0 hget hnidle
    have h := processMessage_stop_active h0 hget hnidle
    refine ⟨?_, h.2.2⟩
    rw [h.1]
    exact pySetState_get State.DEINITIALIZING h0 hget
  · intro pool i n slot hpy hget
    simp only [setTimerForDeinitializationPeriod, pySetState, hpy]
    exact listModify_get_self _ hget

/-- Witness for C3: STOP 0 on a one-slot pool whose slot is RUNNING puts the
slot in DEINITIALIZING and arms the timer for id 0, and firing the timer on
the resulting pool puts the slot back to IDLE even though the handle is still
present; the lifecycle steps exist from a concrete non-IDLE state. -/
theorem claim_stop_deinitializing_then_timer_idle_witness :
    ((processMessage [{ state := State.RUNNING, handle := some 5 }]
        (Request.msg (some "STOP") (some 0))).pool[(0 : Int).toNat]? =
      some { state := State.DEINITIALIZING, handle := some 5 } ∧
     (processMessage [{ state := State.RUNNING, handle := some 5 }]
        (Request.msg (some "STOP") (some 0))).timersArmed = [0]) ∧
    (setTimerForDeinitializationPeriod
        [{ state := State.DEINITIALIZING, handle := some 5 }] 0)[(0 : Nat)]? =
      some { state := State.IDLE, handle := some 5 } ∧
    Step { state := State.RUNNING, handle := some 5, preHandle := 0, preReady := 0,
           preExit := 1, timers := 0 }
      { state := State.DEINITIALIZING, handle := some 5, preHandle := 0,
        preReady := 0, preExit := 1, timers := 1 } ∧
    Step { state := State.DEINITIALIZING, handle := some 5, preHandle := 0,
           preReady := 0, preExit := 1, timers := 1 }
      { state := State.IDLE, handle := some 5, preHandle := 0, preReady := 0,
        preExit := 1, timers := 0 } := by
  refine ⟨claim_stop_deinitializing_then_timer_idle.1
      [{ state := State.RUNNING, handle := some 5 }] 0
      { state := State.RUNNING, handle := some 5 } (by decide) (by decide)
      (by decide),
    claim_stop_deinitializing_then_timer_idle.2.1
      [{ state := State.DEINITIALIZING, handle := some 5 }] 0 0
      { state := State.DEINITIALIZING, handle := some 5 } rfl (by decide),
    claim_stop_deinitializing_then_timer_idle.2.2.1 _ (by decide),
    claim_stop_deinitializing_then_timer_idle.2.2.2 _ (by decide)⟩

end OpenSpaceSupervisor

namespace OpenSpaceSupervisor

theorem reachable_state_ne_invalid {s : SlotSys} (h : Reachable s) :
    s.state ≠ State.INVALID := by
  induction h with
  | init => decide
  | step hr hstep ih => cases hstep <;> simp_all

/-- C2 (amended): for every slot and every reachable step of the lifecycle
(START handling, the launcher's handle/readiness/exit writes, STOP handling,
timer expiry), a state change runs along one of the edges IDLE→INITIALIZING,
INITIALIZING→RUNNING, INITIALIZING→DEINITIALIZING, RUNNING→DEINITIALIZING,
DEINITIALIZING→IDLE, RUNNING→IDLE, DEINITIALIZING→RUNNING, IDLE→RUNNING, or
INITIALIZING→IDLE; in particular no edge ever enters INITIALIZING from a
non-IDLE state and no edge IDLE→DEINITIALIZING occurs. -/
theorem claim_slot_state_edges (s t : SlotSys) (hr : Reachable s) (hstep : Step s t)
    (hne : s.state ≠ t.state) : codeEdge s.state t.state := by
  have hinv := reachable_state_ne_invalid hr
  rcases s with ⟨st, h, a, b, c, d⟩
  cases hstep <;> cases st <;> simp_all <;> decide

/-- C2 (counterexample): the claimed edge list omits RUNNING→IDLE, yet the
launcher's exit write takes a reachable RUNNING slot directly back to IDLE
(the normal path when the instance quits via the frontend GUI,
`runOpenspace` line "RUNNING -> IDLE"). -/
theorem claim_slot_state_edges_counterexample :
    Reachable { state := State.RUNNING, handle := some 0, preHandle := 0,
                preReady := 0, preExit := 1, timers := 0 } ∧
    Step { state := State.RUNNING, handle := some 0, preHandle := 0, preReady := 0,
           preExit := 1, timers := 0 }
        { state := State.IDLE, handle := some 0, preHandle := 0, preReady := 0,
          preExit := 0, timers := 0 } ∧
    ¬ specEdge State.RUNNING State.IDLE := by
  have h1 : Reachable
      { state := State.INITIALIZING, handle := none, preHandle := 1,
        preReady := 0, preExit := 0, timers := 0 } :=
    Reachable.step Reachable.init (Step.start initSlot rfl)
  have h2 : Reachable
      { state := State.INITIALIZING, handle := some 0, preHandle := 0,
        preReady := 1, preExit := 0, timers := 0 } :=
    Reachable.step h1 (Step.storeHandle _ 0 (by decide))
  have h3 : Reachable
      { state := State.RUNNING, handle := some 0, preHandle := 0,
        preReady := 0, preExit := 1, timers := 0 } :=
    Reachable.step h2 (Step.ready _ (by decide))
  exact ⟨h3, Step.exitDetected _ (by decide), by decide⟩

/-- Witness for C2 (amended): the START edge from the initial slot is a code
edge. -/
theorem claim_slot_state_edges_witness : codeEdge State.IDLE State.INITIALIZING :=
  claim_slot_state_edges initSlot
    { state := State.INITIALIZING, handle := none, preHandle := 1, preReady := 0,
      preExit := 0, timers := 0 }
    Reachable.init (Step.start initSlot rfl) (by decide)

end OpenSpaceSupervisor

namespace OpenSpaceSupervisor

theorem processMessage_stop_invalid_id {pool : List OsProcess} {i : Int}
    (h : ¬ i < (pool.length : Int)) :
    processMessage pool (Request.msg (some "STOP") (some i)) =
      { pool := pool,
        sent := [[("command", JVal.s "STOP"), ("error", JVal.s "invalid id"),
                  ("id", JVal.i i)]] } := by
  simp only [processMessage, if_neg h]
  rfl

theorem processMessage_stop_indexerror {pool : List OsProcess} {i : Int}
    (hlt : i < (pool.length : Int)) (hpg : pyGet pool i = none) :
    processMessage pool (Request.msg (some "STOP") (some i)) =
      { pool := pool, exn := some "IndexError: list index out of range" } := by
  simp only [processMessage, if_pos hlt, hpg]
  rfl

theorem processMessage_stop_idle_of_pyGet {pool : List OsProcess} {i : Int}
    {slot : OsProcess} (hlt : i < (pool.length : Int))
    (hpg : pyGet pool i = some slot) (hidle : slot.state = State.IDLE) :
    processMessage pool (Request.msg (some "STOP") (some i)) =
      { pool := pool,
        sent := [[("command", JVal.s "STOP"), ("error", JVal.s "not running"),
                  ("id", JVal.i i)]] } := by
  simp only [processMessage, if_pos hlt, hpg, if_pos hidle]
  rfl

theorem processMessage_stop_active_of_pyGet {pool : List OsProcess} {i : Int}
    {slot : OsProcess} (hlt : i < (pool.length : Int))
    (hpg : pyGet pool i = some slot) (hnidle : slot.state ≠ State.IDLE) :
    (processMessage pool (Request.msg (some "STOP") (some i))).sent =
      [[("command", JVal.s "STOP"), ("error", JVal.s "none"), ("id", JVal.i i)]] := by
  simp only [processMessage, if_pos hlt, hpg, if_neg hnidle]
  cases htm : terminateOpenSpaceInstance (pySetState pool i State.DEINITIALIZING) i <;>
    simp [htm, trySend, jsonDumpsOk, serializableJVal, setField, initialResult]

theorem processMessage_status_inrange {pool : List OsProcess} {i : Int}
    {slot : OsProcess} (hguard : i < (pool.length : Int) ∧ 0 ≤ i)
    (hpg : pyGet pool i = some slot) :
    processMessage pool (Request.msg (some "STATUS") (some i)) =
      { pool := pool,
        sent := [[("command", JVal.s "STATUS"), ("error", JVal.s "none"),
                  ("id", JVal.i 0),
                  ("status", JVal.s (currentStateString slot.state))]] } := by
  simp only [processMessage, if_pos hguard, hpg]
  rfl

theorem processMessage_status_invalid {pool : List OsProcess} {i : Int}
    (h : ¬ (i < (pool.length : Int) ∧ 0 ≤ i)) :
    processMessage pool (Request.msg (some "STATUS") (some i)) =
      { pool := pool,
        exn := some "TypeError: Object of type State is not JSON serializable" } := by
  simp only [processMessage, if_neg h]
  rfl

theorem pyGet_ne_none_of_inrange {pool : List OsProcess} {i : Int}
    (hguard : i < (pool.length : Int) ∧ 0 ≤ i) : pyGet pool i ≠ none := by
  rw [pyGet_nonneg hguard.2 hguard.1]
  have hlen : i.toNat < pool.length := by omega
  simp [List.getElem?_eq_getElem hlen]

theorem processMessage_server_status (pool : List OsProcess) (idf : Option Int) :
    processMessage pool (Request.msg (some "SERVER_STATUS") idf) =
      { pool := pool,
        sent := [[("command", JVal.s "SERVER_STATUS"), ("error", JVal.s "none"),
                  ("id", JVal.i 0), ("running", JVal.i (countNonIdle pool : Int)),
                  ("total", JVal.i (pool.length : Int))]] } := rfl

theorem processMessage_command_echo :
    ∀ (pool : List OsProcess) (idf : Option Int) (cmd : String),
        (cmd = "START" ∨ cmd = "STOP" ∨ cmd = "STATUS" ∨ cmd = "SERVER_STATUS") →
        ∀ r ∈ (processMessage pool (Request.msg (some cmd) idf)).sent,
          getField r "command" = some (JVal.s cmd) := by
  intro pool idf cmd hcmd r hr
  rcases hcmd with h | h | h | h <;> subst h
  · cases hf : findFirstIdle pool with
    | some j =>
      rw [processMessage_start_found idf hf] at hr
      simp at hr
      subst hr
      rfl
    | none =>
      rw [processMessage_start_none idf hf] at hr
      simp at hr
      subst hr
      rfl
  · cases idf with
    | none => simp [processMessage] at hr
    | some i =>
      by_cases hlt : i < (pool.length : Int)
      · cases hpg : pyGet pool i with
        | none => rw [processMessage_stop_indexerror hlt hpg] at hr; simp at hr
        | some slot =>
          by_cases hidle : slot.state = State.IDLE
          · rw [processMessage_stop_idle_of_pyGet hlt hpg hidle] at hr
            simp at hr
            subst hr
            rfl
          · rw [processMessage_stop_active_of_pyGet hlt hpg hidle] at hr
            simp at hr
            subst hr
            rfl
      · rw [processMessage_stop_invalid_id hlt] at hr
        simp at hr
        subst hr
        rfl
  · cases idf with
    | none => simp [processMessage] at hr
    | some i =>
      by_cases hguard : i < (pool.length : Int) ∧ 0 ≤ i
      · cases hpg : pyGet pool i with
        | none => exact absurd hpg (pyGet_ne_none_of_inrange hguard)
        | some slot =>
          rw [processMessage_status_inrange hguard hpg] at hr
          simp at hr
          subst hr
          rfl
      · rw [processMessage_status_invalid hguard] at hr
        simp at hr
  · rw [processMessage_server_status pool idf] at hr
    simp at hr
    subst hr
    rfl

/-- C8 (counterexample): the reply to an unrecognized command is a bare error
object that does not echo the `command` field, and a well-formed JSON object
missing the required `command` field is not answered with the generic
decode-error reply: the handler raises an uncaught KeyError and sends no
reply. -/
theorem claim_reply_protocol_counterexample :
    processMessage [] (Request.msg (some "FOO") none) =
      { pool := [],
        sent := [[("error", JVal.s "invalid message received: FOO")]] } ∧
    getField [("error", JVal.s "invalid message received: FOO")] "command" = none ∧
    processMessage [] (Request.msg none none) =
      { pool := [], sent := [], exn := some "KeyError: command" } :=
  ⟨rfl, rfl, rfl⟩

/-- C8 (amended): an unrecognized command is answered with a structured error
naming the command (without echoing a `command` field); a payload that is not
parseable as JSON is answered with the generic decode-error reply; a parsed
object missing the required `command` field — or missing `id` for STOP and
STATUS — raises an uncaught KeyError and no reply is sent (only the
connection handler fails, the server keeps serving); every reply actually
sent in response to a recognized command echoes the `command` field. -/
theorem claim_reply_protocol :
    (∀ (pool : List OsProcess) (idf : Option Int) (cmd : String),
        cmd ≠ "START" → cmd ≠ "STOP" → cmd ≠ "STATUS" → cmd ≠ "SERVER_STATUS" →
        processMessage pool (Request.msg (some cmd) idf) =
          { pool := pool,
            sent := [[("error", JVal.s ("invalid message received: " ++ cmd))]] }) ∧
    (∀ pool : List OsProcess,
        processMessage pool Request.malformed =
          { pool := pool, sent := [[("error", JVal.s "json decode error")]] }) ∧
    (∀ (pool : List OsProcess) (idf : Option Int),
        processMessage pool (Request.msg none idf) =
          { pool := pool, exn := some "KeyError: command" }) ∧
    (∀ pool : List OsProcess,
        processMessage pool (Request.msg (some "STOP") none) =
          { pool := pool, exn := some "KeyError: id" } ∧
        processMessage pool (Request.msg (some "STATUS") none) =
          { pool := pool, exn := some "KeyError: id" }) ∧
    (∀ (pool : List OsProcess) (idf : Option Int) (cmd : String),
        (cmd = "START" ∨ cmd = "STOP" ∨ cmd = "STATUS" ∨ cmd = "SERVER_STATUS") →
        ∀ r ∈ (processMessage pool (Request.msg (some cmd) idf)).sent,
          getField r "command" = some (JVal.s cmd)) := by
  refine ⟨?_, fun pool => rfl, fun pool idf => rfl, fun pool => ⟨rfl, rfl⟩,
    processMessage_command_echo⟩
  intro pool idf cmd h1 h2 h3 h4
  simp only [processMessage, if_neg h1, if_neg h2, if_neg h3, if_neg h4]
  rfl

/-- Witness for C8 (amended): an unknown command "PING" on an empty pool gets
the structured error reply, and the STATUS reply on a one-slot pool echoes
the command. -/
theorem claim_reply_protocol_witness :
    processMessage [] (Request.msg (some "PING") none) =
      { pool := [],
        sent := [[("error", JVal.s "invalid message received: PING")]] } ∧
    getField [("command", JVal.s "STATUS"), ("error", JVal.s "none"),
              ("id", JVal.i 0), ("status", JVal.s "IDLE")] "command" =
      some (JVal.s "STATUS") := by
  constructor
  · exact claim_reply_protocol.1 [] none "PING"
      (by decide) (by decide) (by decide) (by decide)
  · exact claim_reply_protocol.2.2.2.2 [{ state := State.IDLE }] (some 0) "STATUS"
      (Or.inr (Or.inr (Or.inl rfl)))
      [("command", JVal.s "STATUS"), ("error", JVal.s "none"),
       ("id", JVal.i 0), ("status", JVal.s "IDLE")] (by decide)

end OpenSpaceSupervisor

namespace OpenSpaceProxy

/-- C9: The literal path "/ws" is relayed; a request path whose numeric value
p satisfies p = 8443 or 4682 ≤ p ≤ 4782 is relayed to that port; every other
path (non-numeric, or a number outside the allow-list such as 99999) is
closed with the fixed policy-violation close code 1008 before any outbound
connection is attempted. -/
theorem claim_proxy_path_policy :
    handler "/ws" = ProxyAction.relayWs ∧
    (∀ (path : String) (p : Int),
        pathNumericValue path = some p →
        (p = 8443 ∨ (4682 ≤ p ∧ p ≤ 4782)) →
        handler path = ProxyAction.relayPort p) ∧
    (∀ path : String, path ≠ "/ws" →
        (∀ p : Int, pathNumericValue path = some p →
          ¬ (p = 8443 ∨ (4682 ≤ p ∧ p ≤ 4782))) →
        ∃ reason, handler path = ProxyAction.close 1008 reason) := by
  refine ⟨rfl, ?_, ?_⟩
  · intro path p hval hallow
    by_cases hws : path = "/ws"
    · subst hws
      rw [show pathNumericValue "/ws" = none from by decide] at hval
      simp at hval
    · cases hsw : startsWithSlash path with
      | false => simp only [pathNumericValue, hsw] at hval; simp at hval
      | true =>
        have hparse : pyInt (pyStripSlashes path) = some p := by
          simpa only [pathNumericValue, hsw, if_true] using hval
        have hap : allowedPort p := by
          simp only [allowedPort, BASE_PORT, MAX_OFFSET]
          omega
        simp only [handler, if_neg hws, hsw]
        simp [hparse, hap]
  · intro path hne hforbid
    cases hsw : startsWithSlash path with
    | false =>
      refine ⟨"Invalid path", ?_⟩
      simp only [handler, if_neg hne, hsw]
      simp
    | true =>
      cases hparse : pyInt (pyStripSlashes path) with
      | none =>
        refine ⟨"Invalid port format", ?_⟩
        simp only [handler, if_neg hne, hsw]
        simp [hparse]
      | some p =>
        have hval : pathNumericValue path = some p := by
          simp only [pathNumericValue, hsw, if_true, hparse]
        have hnap : ¬ allowedPort p := by
          have hfp := hforbid p hval
          simp only [allowedPort, BASE_PORT, MAX_OFFSET]
          omega
        refine ⟨"Invalid port range", ?_⟩
        simp only [handler, if_neg hne, hsw]
        simp [hparse, hnap]

/-- Witness for C9: path "/8443" is relayed to port 8443 and path "/99999"
is closed with code 1008. -/
theorem claim_proxy_path_policy_witness :
    handler "/8443" = ProxyAction.relayPort 8443 ∧
    (∃ reason, handler "/99999" = ProxyAction.close 1008 reason) := by
  constructor
  · exact claim_proxy_path_policy.2.1 "/8443" 8443 (by decide) (by decide)
  · refine claim_proxy_path_policy.2.2 "/99999" (by decide) ?_
    intro p hp
    rw [show pathNumericValue "/99999" = some 99999 from by decide] at hp
    have hp99 : p = 99999 := by
      injection hp with h
      omega
    subst hp99
    decide

end OpenSpaceProxy
